import Mathlib

/-!
# Verification of the Anonymous Voice Notes backend

Shallow embedding of `src/index.js` (the in-memory / streaming server
variant, whose line numbers the claims cite).  The Express/multer boundary,
Cloudinary and the HTTP wire format are modelled as explicit inputs and
outputs of the four request handlers:

* `uploadVoice`   — `POST /api/upload-voice` (lines 53-105);
* `listNotes`     — `GET /api/admin/voice-notes` (lines 108-123);
* `markDownloaded`— `POST /api/admin/voice-notes/:id/downloaded` (126-143);
* `deleteNote`    — `DELETE /api/admin/voice-notes/:id` (146-170).

The outcome of each remote-store (Cloudinary) call is an oracle argument of
type `Except`, mirroring the error-first callback of `upload_stream` and the
possible rejection of `uploader.destroy`.  ISO timestamp strings are
modelled as naturals ordered the same way `new Date(ts)` orders them.
JS strings are modelled as Lean strings; `substring` acts on the character
sequence.
-/

namespace VoiceBackend

/-- One metadata record, mirroring the `voiceNote` object literal built in
the upload handler (lines 75-86).  `duration` is always `null` in the
source, kept here as an `Option` that the code never sets. -/
structure VoiceNote where
  id : Nat
  cloudinaryUrl : String
  publicId : String
  effect : String
  timestamp : Nat
  userAgent : String
  fileSize : Nat
  duration : Option Nat
  downloaded : Bool
  downloadCount : Nat
  deriving DecidableEq, Inhabited

/-- The module-level mutable state: `let voiceNotes = []` and
`let noteIdCounter = 1` (lines 49-50). -/
structure ServerState where
  voiceNotes : List VoiceNote
  noteIdCounter : Nat
  deriving DecidableEq

/-- State at process start: empty registry, counter 1. -/
def initialState : ServerState := { voiceNotes := [], noteIdCounter := 1 }

/-- `req.file` as multer's memory storage presents it: the payload bytes
(`req.file.size` is the buffer length). -/
structure UploadFile where
  buffer : List Nat
  deriving DecidableEq

/-- The `result` object Cloudinary passes to the `upload_stream` callback;
only the two fields the handler reads. -/
structure RemoteUploadResult where
  secure_url : String
  public_id : String
  deriving DecidableEq

/-- JSON response envelope produced by the handlers via `res.status(..)` and
`res.json(..)`; absent JSON fields are `none`.  `res.json` without
`res.status` replies 200. -/
structure HttpResponse where
  status : Nat
  success : Option Bool := none
  message : Option String := none
  id : Option Nat := none
  url : Option String := none
  count : Option Nat := none
  error : Option String := none
  details : Option String := none
  deriving DecidableEq

/-- Decimal digit value of a character, if any. -/
def digitVal? (c : Char) : Option Nat :=
  if '0' ≤ c ∧ c ≤ '9' then some (c.toNat - '0'.toNat) else none

/-- Hexadecimal digit value of a character, if any. -/
def hexDigitVal? (c : Char) : Option Nat :=
  if '0' ≤ c ∧ c ≤ '9' then some (c.toNat - '0'.toNat)
  else if 'a' ≤ c ∧ c ≤ 'f' then some (c.toNat - 'a'.toNat + 10)
  else if 'A' ≤ c ∧ c ≤ 'F' then some (c.toNat - 'A'.toNat + 10)
  else none

/-- Fold the maximal leading digit run onto an accumulator. -/
def digitsAcc (dv : Char → Option Nat) (base : Nat) : List Char → Nat → Nat
  | [], acc => acc
  | c :: cs, acc =>
    match dv c with
    | none => acc
    | some d => digitsAcc dv base cs (acc * base + d)

/-- Value of the maximal leading digit run, `none` when the run is empty. -/
def leadingNumber (dv : Char → Option Nat) (base : Nat) : List Char → Option Nat
  | [] => none
  | c :: cs =>
    match dv c with
    | none => none
    | some d => some (digitsAcc dv base cs d)

/-- The ASCII whitespace JS trims before parsing a number. -/
def isJsWhitespace (c : Char) : Bool := c = ' ' ∨ c = '\t' ∨ c = '\n' ∨ c = '\r'

/-- JS `parseInt(s)` with no radix argument, as used on `req.params.id`
(lines 128 and 148): skip leading whitespace, optional sign, a `0x`/`0X`
prefix selects hexadecimal, otherwise decimal; the maximal leading digit run
is converted, and `NaN` (modelled as `none`) results when that run is
empty. -/
def parseIntJS (s : String) : Option Int :=
  let cs0 := s.data.dropWhile isJsWhitespace
  let sign : Int := match cs0 with | '-' :: _ => -1 | _ => 1
  let cs1 := match cs0 with
    | '-' :: rest => rest
    | '+' :: rest => rest
    | _ => cs0
  let body : Option Nat :=
    match cs1 with
    | '0' :: 'x' :: rest => leadingNumber hexDigitVal? 16 rest
    | '0' :: 'X' :: rest => leadingNumber hexDigitVal? 16 rest
    | _ => leadingNumber digitVal? 10 cs1
  body.map (fun n => sign * (n : Int))

/-- `n.id === noteId` where `noteId = parseInt(req.params.id)`: `NaN`
(`none`) compares unequal to every id. -/
def matchesId (noteId : Option Int) (n : VoiceNote) : Bool :=
  noteId = some (n.id : Int)

/-- JS `x || "dflt"` on an optional string field: `undefined` and `""` are
falsy (used for `effect || "unknown"`, line 79, and the `userAgent`
conditional, line 81). -/
def jsOrString (x : Option String) (d : String) : String :=
  match x with
  | some s => if s = "" then d else s
  | none => d

/-- JS `x || 0` on a number that is a `Nat` here: `0` is the only falsy
value, so this is the identity (line 136). -/
def jsOrZero (x : Nat) : Nat := if x = 0 then 0 else x

/-- JS `s.substring(0, 100)` on the character sequence (line 81). -/
def substr100 (s : String) : String := String.mk (s.data.take 100)

/-- `userAgent ? userAgent.substring(0, 100) : "unknown"` (line 81). -/
def clientHintOf (userAgent : Option String) : String :=
  match userAgent with
  | some s => if s = "" then "unknown" else substr100 s
  | none => "unknown"

/-- Outcome of the upload handler: the JSON reply, the new server state,
and whether a Cloudinary upload was started (i.e. control reached the
`upload_stream` call on line 62). -/
structure UploadOutcome where
  resp : HttpResponse
  state : ServerState
  remoteAttempted : Bool
  deriving DecidableEq

/-- `POST /api/upload-voice` (lines 53-105).  `file` is `req.file` (absent
when multer received no `audio` part), `effect`/`userAgent` come from
`req.body`, `now` is the creation time, and `remote` is the error-first
callback outcome of `cloudinary.uploader.upload_stream`. -/
def uploadVoice (st : ServerState) (file : Option UploadFile)
    (effect userAgent : Option String) (now : Nat)
    (remote : Except String RemoteUploadResult) : UploadOutcome :=
  match file with
  | none =>
    { resp := { status := 400, error := some "No audio file provided" },
      state := st, remoteAttempted := false }
  | some f =>
    match remote with
    | .error _e =>
      { resp := { status := 500, error := some "Upload failed" },
        state := st, remoteAttempted := true }
    | .ok result =>
      let voiceNote : VoiceNote :=
        { id := st.noteIdCounter,
          cloudinaryUrl := result.secure_url,
          publicId := result.public_id,
          effect := jsOrString effect "unknown",
          timestamp := now,
          userAgent := clientHintOf userAgent,
          fileSize := f.buffer.length,
          duration := none,
          downloaded := false,
          downloadCount := 0 }
      { resp := { status := 200, success := some true,
                  message := some "Voice note uploaded successfully",
                  id := some voiceNote.id, url := some result.secure_url },
        state := { voiceNotes := st.voiceNotes ++ [voiceNote],
                   noteIdCounter := st.noteIdCounter + 1 },
        remoteAttempted := true }

/-- The sort comparator `(a, b) => new Date(b.timestamp) - new Date(a.timestamp)`
(line 111): `a` stays before `b` exactly when the comparator is ≤ 0, i.e.
`b.timestamp ≤ a.timestamp`. -/
def byNewest (a b : VoiceNote) : Bool := b.timestamp ≤ a.timestamp

/-- Outcome of the list handler: the JSON reply, the `notes` value as
serialized into the reply, and the new server state (`Array.prototype.sort`
reorders `voiceNotes` in place). -/
structure ListOutcome where
  resp : HttpResponse
  notes : List VoiceNote
  state : ServerState
  deriving DecidableEq

/-- `GET /api/admin/voice-notes` (lines 108-123).  `sort` is modelled by the
stable `mergeSort` (ES2019 requires `Array.prototype.sort` to be stable). -/
def listNotes (st : ServerState) : ListOutcome :=
  let sortedNotes := st.voiceNotes.mergeSort byNewest
  { resp := { status := 200, success := some true,
              count := some sortedNotes.length },
    notes := sortedNotes,
    state := { st with voiceNotes := sortedNotes } }

/-- In the source the handler responds with `sortedNotes`, which is the
registry array itself (`sort` sorts in place and returns its receiver), so
the `notes` value handed back by the registry-level `list()` is a live
reference, not a copy.  `returnedSeq st` is the sequence an earlier caller
observes through that reference once the registry has evolved to state
`st`. -/
def returnedSeq (st : ServerState) : List VoiceNote := st.voiceNotes

/-- Replace the first element satisfying `p` — the effect of mutating the
object that `Array.prototype.find` returned by reference. -/
def updateFirst (p : α → Bool) (f : α → α) : List α → List α
  | [] => []
  | x :: xs => if p x then f x :: xs else x :: updateFirst p f xs

/-- The two field mutations on line 135-136: `note.downloaded = true` and
`note.downloadCount = (note.downloadCount || 0) + 1`. -/
def markFields (n : VoiceNote) : VoiceNote :=
  { n with downloaded := true, downloadCount := jsOrZero n.downloadCount + 1 }

/-- Outcome of the mark-downloaded handler. -/
structure MarkOutcome where
  resp : HttpResponse
  state : ServerState
  deriving DecidableEq

/-- `POST /api/admin/voice-notes/:id/downloaded` (lines 126-143). -/
def markDownloaded (st : ServerState) (idStr : String) : MarkOutcome :=
  let noteId := parseIntJS idStr
  match st.voiceNotes.find? (matchesId noteId) with
  | none =>
    { resp := { status := 404, error := some "Voice note not found" },
      state := st }
  | some _note =>
    { resp := { status := 200, success := some true,
                message := some "Marked as downloaded" },
      state := { st with
                 voiceNotes := updateFirst (matchesId noteId) markFields
                   st.voiceNotes } }

/-- The state transition of one mark-downloaded request. -/
def markStep (idStr : String) (st : ServerState) : ServerState :=
  (markDownloaded st idStr).state

/-- Outcome of the delete handler: the JSON reply, the new server state,
and the `public_id` passed to `cloudinary.uploader.destroy`, when that call
was made at all. -/
structure DeleteOutcome where
  resp : HttpResponse
  state : ServerState
  destroyCalled : Option String
  deriving DecidableEq

/-- `DELETE /api/admin/voice-notes/:id` (lines 146-170).  `remote` is the
outcome of the awaited `uploader.destroy`; when it rejects, the `catch`
block replies 500 and the `splice` on line 163 is never reached. -/
def deleteNote (st : ServerState) (idStr : String)
    (remote : Except String Unit) : DeleteOutcome :=
  let noteId := parseIntJS idStr
  match st.voiceNotes.findIdx? (matchesId noteId) with
  | none =>
    { resp := { status := 404, error := some "Voice note not found" },
      state := st, destroyCalled := none }
  | some noteIndex =>
    let note := (st.voiceNotes[noteIndex]?).getD default
    match remote with
    | .error _e =>
      { resp := { status := 500, error := some "Failed to delete voice note" },
        state := st, destroyCalled := some note.publicId }
    | .ok _ =>
      { resp := { status := 200, success := some true,
                  message := some "Voice note deleted successfully" },
        state := { st with voiceNotes := st.voiceNotes.eraseIdx noteIndex },
        destroyCalled := some note.publicId }

/-- One inbound request, with its oracle inputs. -/
inductive Op where
  | upload (file : Option UploadFile) (effect userAgent : Option String)
      (now : Nat) (remote : Except String RemoteUploadResult)
  | listReq
  | mark (idStr : String)
  | del (idStr : String) (remote : Except String Unit)

/-- Apply one request to the state; the second component is the list of
`id` values returned to submitters (one on upload success, none
otherwise). -/
def applyOp (st : ServerState) : Op → ServerState × List Nat
  | .upload file effect userAgent now remote =>
    let o := uploadVoice st file effect userAgent now remote
    (o.state, match o.resp.id with | some i => [i] | none => [])
  | .listReq => ((listNotes st).state, [])
  | .mark idStr => ((markDownloaded st idStr).state, [])
  | .del idStr remote => ((deleteNote st idStr remote).state, [])

/-- Run a sequence of requests, collecting all returned ids in order. -/
def runTrace (st : ServerState) : List Op → ServerState × List Nat
  | [] => (st, [])
  | op :: ops =>
    let r1 := applyOp st op
    let r2 := runTrace r1.1 ops
    (r2.1, r1.2 ++ r2.2)

/-- Whether a request is a submission the remote store accepts. -/
def isSuccessUpload : Op → Bool
  | .upload (some _) _ _ _ (.ok _) => true
  | _ => false

/-- Number of successful submissions in a request sequence. -/
def countSuccess (ops : List Op) : Nat := (ops.filter isSuccessUpload).length

/-- A concrete record used to instantiate the theorems below. -/
def demoNote : VoiceNote :=
  { id := 1, cloudinaryUrl := "https://cdn.example/a.webm",
    publicId := "anonymous-voices/p1", effect := "echo", timestamp := 10,
    userAgent := "agent", fileSize := 3, duration := none,
    downloaded := false, downloadCount := 0 }

/-- A concrete registry holding `demoNote`, counter already advanced. -/
def demoState : ServerState := { voiceNotes := [demoNote], noteIdCounter := 2 }

/-! ## Helper lemmas -/

theorem jsOrZero_eq (x : Nat) : jsOrZero x = x := by
  unfold jsOrZero
  split <;> omega

theorem updateFirst_id_fun (p : α → Bool) (l : List α) :
    updateFirst p (fun a => a) l = l := by
  induction l with
  | nil => rfl
  | cons x xs ih =>
    unfold updateFirst
    split <;> simp [ih]

theorem updateFirst_congrFun (p : α → Bool) (f g : α → α)
    (h : ∀ a, f a = g a) (l : List α) :
    updateFirst p f l = updateFirst p g l := by
  induction l with
  | nil => rfl
  | cons x xs ih =>
    unfold updateFirst
    split <;> simp [h, ih]

theorem find?_updateFirst (p : α → Bool) (f : α → α)
    (hpf : ∀ a, p a = true → p (f a) = true) (l : List α) :
    List.find? p (updateFirst p f l) = (List.find? p l).map f := by
  induction l with
  | nil => rfl
  | cons x xs ih =>
    by_cases hx : p x = true
    · simp [updateFirst, hx, List.find?_cons_of_pos, hpf x hx]
    · simp only [updateFirst, hx, if_false, Bool.false_eq_true]
      rw [List.find?_cons_of_neg _ (by simp [hx]),
        List.find?_cons_of_neg _ (by simp [hx]), ih]

theorem updateFirst_comp (p : α → Bool) (f g : α → α)
    (hpg : ∀ a, p a = true → p (g a) = true) (l : List α) :
    updateFirst p f (updateFirst p g l) = updateFirst p (fun a => f (g a)) l := by
  induction l with
  | nil => rfl
  | cons x xs ih =>
    by_cases hx : p x = true
    · simp [updateFirst, hx, hpg x hx]
    · simp [updateFirst, hx, ih]

/-! ## Claim theorems -/

/-- Claim C2, counterexample: when the remote store fails, the reply is the
fixed envelope `{error: "Upload failed"}` with HTTP 500 — the `details`
field is absent, so the underlying cause ("network down" here) is not
surfaced in the response, contrary to the claim. -/
theorem upload_failure_counterexample :
    (uploadVoice initialState (some { buffer := [1, 2, 3] }) none none 0
        (Except.error "network down")).resp.status = 500 ∧
    (uploadVoice initialState (some { buffer := [1, 2, 3] }) none none 0
        (Except.error "network down")).resp.error = some "Upload failed" ∧
    (uploadVoice initialState (some { buffer := [1, 2, 3] }) none none 0
        (Except.error "network down")).resp.details = none := by
  decide

/-- Claim C2 (amended): when the remote store reports failure, no record is
inserted (the registry is exactly as before), the operation replies
HTTP 500 with the fixed message "Upload failed" and no `details` field
(the underlying cause is logged, not surfaced), and `listNotes` afterwards
still returns exactly the pre-submission records. -/
theorem upload_failure_no_record (st : ServerState) (f : UploadFile)
    (effect userAgent : Option String) (now : Nat) (e : String) :
    (uploadVoice st (some f) effect userAgent now (Except.error e)).state = st ∧
    (uploadVoice st (some f) effect userAgent now (Except.error e)).resp.status = 500 ∧
    (uploadVoice st (some f) effect userAgent now (Except.error e)).resp.error
      = some "Upload failed" ∧
    (uploadVoice st (some f) effect userAgent now (Except.error e)).resp.details
      = none ∧
    (listNotes ((uploadVoice st (some f) effect userAgent now
        (Except.error e)).state)).notes.Perm st.voiceNotes :=
  ⟨rfl, rfl, rfl, rfl, List.mergeSort_perm st.voiceNotes byNewest⟩

/-- Claim C3, counterexample: a present but zero-byte file is not rejected:
the `!req.file` guard passes, the remote upload is attempted, and (the
remote store accepting) a record is created — no HTTP 400, contrary to the
claim that an empty payload is refused with no remote attempt. -/
theorem empty_payload_counterexample :
    (uploadVoice initialState (some { buffer := [] }) none none 0
        (Except.ok { secure_url := "https://cdn.example/e.webm",
                     public_id := "pe" })).resp.status ≠ 400 ∧
    (uploadVoice initialState (some { buffer := [] }) none none 0
        (Except.ok { secure_url := "https://cdn.example/e.webm",
                     public_id := "pe" })).remoteAttempted = true ∧
    (uploadVoice initialState (some { buffer := [] }) none none 0
        (Except.ok { secure_url := "https://cdn.example/e.webm",
                     public_id := "pe" })).state.voiceNotes ≠ [] := by
  decide

/-- Claim C3 (amended): only a missing file is refused with HTTP 400 (no
remote attempt, no record, state unchanged); whenever a file is present —
even one of zero bytes — the pipeline proceeds to the remote upload. -/
theorem upload_rejects_only_missing_file (st : ServerState)
    (effect userAgent : Option String) (now : Nat)
    (remote : Except String RemoteUploadResult) (f : UploadFile) :
    (uploadVoice st none effect userAgent now remote).resp.status = 400 ∧
    (uploadVoice st none effect userAgent now remote).resp.error
      = some "No audio file provided" ∧
    (uploadVoice st none effect userAgent now remote).state = st ∧
    (uploadVoice st none effect userAgent now remote).remoteAttempted = false ∧
    (uploadVoice st (some f) effect userAgent now remote).remoteAttempted = true := by
  refine ⟨rfl, rfl, rfl, rfl, ?_⟩
  cases remote <;> rfl

/-- Claim C6: for a numeric id that matches no record in the registry, both
markDownloaded and deleteNote reply HTTP 404 "Voice note not found", leave
the registry completely unchanged, and deleteNote never calls the remote
store. -/
theorem unknown_id_not_found (st : ServerState) (idStr : String) (k : Int)
    (remote : Except String Unit) (hparse : parseIntJS idStr = some k)
    (habs : ∀ n ∈ st.voiceNotes, (n.id : Int) ≠ k) :
    (markDownloaded st idStr).resp.status = 404 ∧
    (markDownloaded st idStr).resp.error = some "Voice note not found" ∧
    (markDownloaded st idStr).state = st ∧
    (deleteNote st idStr remote).resp.status = 404 ∧
    (deleteNote st idStr remote).state = st ∧
    (deleteNote st idStr remote).destroyCalled = none := by
  have hfalse : ∀ n ∈ st.voiceNotes, matchesId (parseIntJS idStr) n = false := by
    intro n hn
    simp [matchesId, hparse]
    intro hk
    exact absurd hk.symm (habs n hn)
  have hfind : st.voiceNotes.find? (matchesId (parseIntJS idStr)) = none := by
    rw [List.find?_eq_none]
    intro n hn
    simp [hfalse n hn]
  have hidx : st.voiceNotes.findIdx? (matchesId (parseIntJS idStr)) = none := by
    rw [List.findIdx?_eq_none_iff]
    exact hfalse
  refine ⟨?_, ?_, ?_, ?_, ?_, ?_⟩ <;>
    simp [markDownloaded, deleteNote, hfind, hidx]

/-- Witness for C6: in a registry holding only id 1, id 2 is unknown: both
operations reply 404, mutate nothing, and no remote deletion is issued even
though the remote oracle would have failed. -/
theorem unknown_id_not_found_witness :
    (parseIntJS "2" = some 2 ∧ ∀ n ∈ demoState.voiceNotes, (n.id : Int) ≠ 2) ∧
    (markDownloaded demoState "2").resp.status = 404 ∧
    (markDownloaded demoState "2").resp.error = some "Voice note not found" ∧
    (markDownloaded demoState "2").state = demoState ∧
    (deleteNote demoState "2" (Except.error "cloud down")).resp.status = 404 ∧
    (deleteNote demoState "2" (Except.error "cloud down")).state = demoState ∧
    (deleteNote demoState "2" (Except.error "cloud down")).destroyCalled = none :=
  ⟨⟨by decide, by decide⟩,
    unknown_id_not_found demoState "2" 2 (Except.error "cloud down")
      (by decide) (by decide)⟩

/-- Claim C10: when `parseInt(req.params.id)` yields `NaN` (the empty
string, purely alphabetic strings, ...), both markDownloaded and deleteNote
reply HTTP 404, leave the registry unchanged, and make no remote call,
because `NaN` compares unequal to every stored id. -/
theorem nonnumeric_id_not_found (st : ServerState) (idStr : String)
    (remote : Except String Unit) (hparse : parseIntJS idStr = none) :
    (markDownloaded st idStr).resp.status = 404 ∧
    (markDownloaded st idStr).resp.error = some "Voice note not found" ∧
    (markDownloaded st idStr).state = st ∧
    (deleteNote st idStr remote).resp.status = 404 ∧
    (deleteNote st idStr remote).state = st ∧
    (deleteNote st idStr remote).destroyCalled = none := by
  have hfalse : ∀ n ∈ st.voiceNotes, matchesId (parseIntJS idStr) n = false := by
    intro n _hn
    simp [matchesId, hparse]
  have hfind : st.voiceNotes.find? (matchesId (parseIntJS idStr)) = none := by
    rw [List.find?_eq_none]
    intro n hn
    simp [hfalse n hn]
  have hidx : st.voiceNotes.findIdx? (matchesId (parseIntJS idStr)) = none := by
    rw [List.findIdx?_eq_none_iff]
    exact hfalse
  refine ⟨?_, ?_, ?_, ?_, ?_, ?_⟩ <;>
    simp [markDownloaded, deleteNote, hfind, hidx]

/-- Witness for C10: the alphabetic id "abc" parses to `NaN`; on a nonempty
registry both operations reply 404 and change nothing, with no remote
call. -/
theorem nonnumeric_id_not_found_witness :
    parseIntJS "abc" = none ∧
    (markDownloaded demoState "abc").resp.status = 404 ∧
    (markDownloaded demoState "abc").resp.error = some "Voice note not found" ∧
    (markDownloaded demoState "abc").state = demoState ∧
    (deleteNote demoState "abc" (Except.ok ())).resp.status = 404 ∧
    (deleteNote demoState "abc" (Except.ok ())).state = demoState ∧
    (deleteNote demoState "abc" (Except.ok ())).destroyCalled = none :=
  ⟨by decide,
    nonnumeric_id_not_found demoState "abc" (Except.ok ()) (by decide)⟩

/-- Claim C1: deleting an id present in the registry first requests remote
deletion of that record's `publicId`; when the remote deletion fails the
reply is HTTP 500 and the registry is completely unchanged (the record and
all its fields remain), and only when the remote deletion succeeds is the
record removed from the registry. -/
theorem deleteNote_remote_first (st : ServerState) (idStr : String)
    (i : Nat) (e : String)
    (hidx : st.voiceNotes.findIdx? (matchesId (parseIntJS idStr)) = some i) :
    (deleteNote st idStr (Except.error e)).state = st ∧
    (deleteNote st idStr (Except.error e)).resp.status = 500 ∧
    (deleteNote st idStr (Except.error e)).resp.error
      = some "Failed to delete voice note" ∧
    (deleteNote st idStr (Except.error e)).destroyCalled
      = some (((st.voiceNotes[i]?).getD default).publicId) ∧
    (deleteNote st idStr (Except.ok ())).state.voiceNotes
      = st.voiceNotes.eraseIdx i ∧
    (deleteNote st idStr (Except.ok ())).resp.status = 200 ∧
    (deleteNote st idStr (Except.ok ())).destroyCalled
      = some (((st.voiceNotes[i]?).getD default).publicId) := by
  simp [deleteNote, hidx]

/-- Witness for C1: with the registry holding exactly `demoNote` (id 1),
deleting id 1 against a failing remote leaves the registry untouched and
replies 500; against a succeeding remote it removes the record; both paths
address the remote object `anonymous-voices/p1`. -/
theorem deleteNote_remote_first_witness :
    demoState.voiceNotes.findIdx? (matchesId (parseIntJS "1")) = some 0 ∧
    (deleteNote demoState "1" (Except.error "cloud down")).state = demoState ∧
    (deleteNote demoState "1" (Except.error "cloud down")).resp.status = 500 ∧
    (deleteNote demoState "1" (Except.error "cloud down")).resp.error
      = some "Failed to delete voice note" ∧
    (deleteNote demoState "1" (Except.error "cloud down")).destroyCalled
      = some (((demoState.voiceNotes[0]?).getD default).publicId) ∧
    (deleteNote demoState "1" (Except.ok ())).state.voiceNotes
      = demoState.voiceNotes.eraseIdx 0 ∧
    (deleteNote demoState "1" (Except.ok ())).resp.status = 200 ∧
    (deleteNote demoState "1" (Except.ok ())).destroyCalled
      = some (((demoState.voiceNotes[0]?).getD default).publicId) :=
  ⟨by decide, deleteNote_remote_first demoState "1" 0 "cloud down" (by decide)⟩

/-- Claim C7: the list endpoint returns all current records (a permutation
of the registry), ordered by creation timestamp descending, and a count
equal to the number of records returned. -/
theorem listNotes_sorted_desc (st : ServerState) :
    (listNotes st).notes.Perm st.voiceNotes ∧
    (listNotes st).notes.Pairwise (fun a b => b.timestamp ≤ a.timestamp) ∧
    (listNotes st).resp.count = some ((listNotes st).notes.length) := by
  refine ⟨List.mergeSort_perm st.voiceNotes byNewest, ?_, rfl⟩
  have htrans : ∀ a b c : VoiceNote,
      byNewest a b = true → byNewest b c = true → byNewest a c = true := by
    intro a b c hab hbc
    simp only [byNewest, decide_eq_true_eq] at *
    omega
  have htotal : ∀ a b : VoiceNote, (byNewest a b || byNewest b a) = true := by
    intro a b
    simp only [byNewest, Bool.or_eq_true, decide_eq_true_eq]
    omega
  have h := List.sorted_mergeSort htrans htotal st.voiceNotes
  exact h.imp (by intro a b hab; simpa [byNewest] using hab)

/-- Claim C8, counterexample: the handler replies with the registry array
itself (in-place sort), so a later `markDownloaded` is visible through the
sequence that `list()` already returned: the observed sequence after the
mutation differs from the one observed at return time. -/
theorem list_snapshot_counterexample :
    returnedSeq ((markDownloaded ((listNotes demoState).state) "1").state)
      ≠ returnedSeq ((listNotes demoState).state) := by
  have hls : (listNotes demoState).state = demoState := by
    simp [listNotes, demoState, List.mergeSort_singleton]
  rw [hls]
  decide

/-- Claim C8 (amended): `list()` is not a snapshot: the `notes` value it
hands back is the live registry array (in-place `sort` returns its
receiver), so any later successful insertion changes the sequence observed
through the already-returned reference.  Only the serialized JSON reply,
captured at return time, is fixed. -/
theorem list_returns_live_array (st : ServerState) (f : UploadFile)
    (effect userAgent : Option String) (now : Nat) (r : RemoteUploadResult) :
    (listNotes st).notes = returnedSeq ((listNotes st).state) ∧
    returnedSeq ((uploadVoice ((listNotes st).state) (some f) effect userAgent
        now (Except.ok r)).state) ≠ returnedSeq ((listNotes st).state) := by
  refine ⟨rfl, ?_⟩
  intro h
  have hlen := congrArg List.length h
  simp [uploadVoice, returnedSeq, listNotes] at hlen

/-- Claim C9, counterexample: the empty string is a clientHint of length
0 ≤ 100, yet it is falsy in JS, so `userAgent ? ... : "unknown"` stores
`"unknown"` instead of storing it unchanged. -/
theorem clientHint_empty_counterexample :
    ("" : String).length ≤ 100 ∧
    (uploadVoice initialState (some { buffer := [1] }) none (some "") 0
        (Except.ok { secure_url := "u", public_id := "p" })).state.voiceNotes.map
        (fun n => n.userAgent) = ["unknown"] ∧
    ("unknown" : String) ≠ "" := by
  decide

/-- Claim C9 (amended): the stored clientHint is `clientHintOf userAgent`;
an absent or empty clientHint is stored as "unknown", a nonempty one of at
most 100 characters is stored unchanged, and a longer one is truncated to
exactly its first 100 characters. -/
theorem clientHint_truncation (st : ServerState) (f : UploadFile)
    (effect userAgent : Option String) (now : Nat) (r : RemoteUploadResult)
    (s : String) (hne : s ≠ "") :
    ((uploadVoice st (some f) effect userAgent now
        (Except.ok r)).state.voiceNotes.getLastD default).userAgent
      = clientHintOf userAgent ∧
    clientHintOf none = "unknown" ∧
    clientHintOf (some "") = "unknown" ∧
    (s.length ≤ 100 → clientHintOf (some s) = s) ∧
    (100 < s.length → (clientHintOf (some s)).length = 100 ∧
      (clientHintOf (some s)).data = s.data.take 100) := by
  refine ⟨?_, rfl, rfl, ?_, ?_⟩
  · simp [uploadVoice, List.getLastD_concat]
  · intro hle
    have hdata : s.data.take 100 = s.data := List.take_of_length_le hle
    simp [clientHintOf, hne, substr100, hdata]
  · intro hgt
    have hlen : (s.data.take 100).length = 100 := by
      rw [List.length_take]
      have : s.data.length = s.length := rfl
      omega
    constructor
    · simpa [clientHintOf, hne, substr100] using hlen
    · simp [clientHintOf, hne, substr100]

/-- Witness for C9 (amended): a 101-character clientHint is stored as its
first 100 characters (length exactly 100), and absent/empty hints store
"unknown". -/
theorem clientHint_truncation_witness :
    (String.mk (List.replicate 101 'a') ≠ "" ∧
      100 < (String.mk (List.replicate 101 'a')).length) ∧
    clientHintOf none = "unknown" ∧
    clientHintOf (some "") = "unknown" ∧
    (clientHintOf (some (String.mk (List.replicate 101 'a')))).length = 100 :=
  ⟨⟨by decide, by decide⟩,
    (clientHint_truncation initialState { buffer := [1] } none none 0
        { secure_url := "u", public_id := "p" }
        (String.mk (List.replicate 101 'a')) (by decide)).2.1,
    (clientHint_truncation initialState { buffer := [1] } none none 0
        { secure_url := "u", public_id := "p" }
        (String.mk (List.replicate 101 'a')) (by decide)).2.2.1,
    ((clientHint_truncation initialState { buffer := [1] } none none 0
        { secure_url := "u", public_id := "p" }
        (String.mk (List.replicate 101 'a')) (by decide)).2.2.2.2
      (by decide)).1⟩

/-! ## Identifier monotonicity (C4) -/

theorem applyOp_counter_ids (st : ServerState) (op : Op) :
    (applyOp st op).2
      = (if isSuccessUpload op then [st.noteIdCounter] else []) ∧
    (applyOp st op).1.noteIdCounter
      = st.noteIdCounter + (if isSuccessUpload op then 1 else 0) := by
  cases op with
  | upload file effect userAgent now remote =>
    cases file with
    | none => simp [applyOp, uploadVoice, isSuccessUpload]
    | some f =>
      cases remote with
      | error e => simp [applyOp, uploadVoice, isSuccessUpload]
      | ok r => simp [applyOp, uploadVoice, isSuccessUpload]
  | listReq => simp [applyOp, listNotes, isSuccessUpload]
  | mark idStr =>
    refine ⟨by simp [applyOp, isSuccessUpload], ?_⟩
    simp only [applyOp, markDownloaded, isSuccessUpload]
    cases h : st.voiceNotes.find? (matchesId (parseIntJS idStr)) <;> simp [h]
  | del idStr remote =>
    refine ⟨by simp [applyOp, isSuccessUpload], ?_⟩
    simp only [applyOp, deleteNote, isSuccessUpload]
    cases h : st.voiceNotes.findIdx? (matchesId (parseIntJS idStr)) with
    | none => simp [h]
    | some i => cases remote <;> simp [h]

theorem runTrace_ids (ops : List Op) : ∀ st : ServerState,
    (runTrace st ops).2 = List.range' st.noteIdCounter (countSuccess ops) ∧
    (runTrace st ops).1.noteIdCounter = st.noteIdCounter + countSuccess ops := by
  induction ops with
  | nil => intro st; simp [runTrace, countSuccess]
  | cons op ops ih =>
    intro st
    obtain ⟨hids, hctr⟩ := applyOp_counter_ids st op
    obtain ⟨ih1, ih2⟩ := ih (applyOp st op).1
    have hcnt : countSuccess (op :: ops)
        = (if isSuccessUpload op then 1 else 0) + countSuccess ops := by
      simp only [countSuccess, List.filter_cons]
      split <;> simp [Nat.add_comm]
    constructor
    · simp only [runTrace]
      rw [hids, ih1, hctr, hcnt]
      by_cases h : isSuccessUpload op = true
      · simp only [h, if_true]
        rw [Nat.add_comm 1 (countSuccess ops), List.range'_succ]
        rfl
      · simp [h]
    · simp only [runTrace]
      rw [ih2, hctr, hcnt]
      omega

/-- Claim C4: across any sequence of requests from process start, the ids
returned by successful submissions are exactly `1, 2, ..., k` (with `k` the
number of successes): strictly increasing, never repeated even when
deletions happen in between, and the first successful submission receives
id 1. -/
theorem upload_ids_strictly_increasing (ops : List Op) :
    (runTrace initialState ops).2 = List.range' 1 (countSuccess ops) ∧
    ((runTrace initialState ops).2).Pairwise (fun a b => a < b) := by
  obtain ⟨h1, _⟩ := runTrace_ids ops initialState
  refine ⟨h1, ?_⟩
  rw [h1]
  exact List.pairwise_lt_range' 1 (countSuccess ops)

/-! ## Repeated mark-downloaded (C5) -/

theorem markFields_id (n : VoiceNote) : (markFields n).id = n.id := rfl

theorem markFields_iterate_id (N : Nat) (n : VoiceNote) :
    (markFields^[N] n).id = n.id := by
  induction N with
  | zero => rfl
  | succ m ih =>
    rw [Function.iterate_succ_apply', markFields_id, ih]

theorem markFields_iterate_succ (N : Nat) (n : VoiceNote) :
    markFields^[N + 1] n
      = { n with downloaded := true, downloadCount := n.downloadCount + (N + 1) } := by
  induction N with
  | zero =>
    show markFields n = _
    simp [markFields, jsOrZero_eq]
  | succ m ih =>
    rw [Function.iterate_succ_apply', ih]
    simp only [markFields, jsOrZero_eq, VoiceNote.mk.injEq, true_and, and_true]
    omega

theorem matchesId_markFields (noteId : Option Int) (a : VoiceNote)
    (h : matchesId noteId a = true) : matchesId noteId (markFields a) = true := h

theorem matchesId_markFields_iterate (noteId : Option Int) (N : Nat)
    (a : VoiceNote) (h : matchesId noteId a = true) :
    matchesId noteId (markFields^[N] a) = true := by
  simp only [matchesId, decide_eq_true_eq] at *
  rw [markFields_iterate_id]
  exact h

theorem markStep_iterate (idStr : String) (N : Nat) :
    ∀ st note, st.voiceNotes.find? (matchesId (parseIntJS idStr)) = some note →
      ((markStep idStr)^[N] st).voiceNotes
          = updateFirst (matchesId (parseIntJS idStr)) (markFields^[N])
              st.voiceNotes ∧
      ((markStep idStr)^[N] st).voiceNotes.find? (matchesId (parseIntJS idStr))
          = some (markFields^[N] note) ∧
      ((markStep idStr)^[N] st).noteIdCounter = st.noteIdCounter := by
  induction N with
  | zero =>
    intro st note h
    exact ⟨(updateFirst_id_fun _ _).symm, h, rfl⟩
  | succ m ih =>
    intro st note h
    obtain ⟨ih1, ih2, ih3⟩ := ih st note h
    rw [Function.iterate_succ_apply']
    have hstep : (markStep idStr ((markStep idStr)^[m] st)).voiceNotes
        = updateFirst (matchesId (parseIntJS idStr)) markFields
            ((markStep idStr)^[m] st).voiceNotes := by
      simp [markStep, markDownloaded, ih2]
    have hctr : (markStep idStr ((markStep idStr)^[m] st)).noteIdCounter
        = ((markStep idStr)^[m] st).noteIdCounter := by
      simp only [markStep, markDownloaded]
      cases hf : ((markStep idStr)^[m] st).voiceNotes.find?
          (matchesId (parseIntJS idStr)) <;> simp [hf]
    refine ⟨?_, ?_, by rw [hctr, ih3]⟩
    · rw [hstep, ih1,
        updateFirst_comp _ markFields (markFields^[m])
          (fun a ha => matchesId_markFields_iterate _ m a ha)]
      apply updateFirst_congrFun
      intro a
      rw [Function.iterate_succ_apply']
    · rw [hstep,
        find?_updateFirst _ markFields
          (fun a ha => matchesId_markFields _ a ha), ih2]
      rw [Function.iterate_succ_apply']
      rfl

/-- Claim C5: for a record present in the registry with a fresh download
counter, after `N ≥ 1` markDownloaded calls on its id the record has
`downloaded = true` and `downloadCount = N`, every other field of the
record is unchanged, and every other record (and the id counter) is
untouched. -/
theorem markDownloaded_repeat (st : ServerState) (idStr : String)
    (note : VoiceNote) (N : Nat)
    (hfind : st.voiceNotes.find? (matchesId (parseIntJS idStr)) = some note)
    (hcount : note.downloadCount = 0) (hN : 1 ≤ N) :
    ((markStep idStr)^[N] st).voiceNotes.find? (matchesId (parseIntJS idStr))
        = some { note with downloaded := true, downloadCount := N } ∧
    ((markStep idStr)^[N] st).voiceNotes
        = updateFirst (matchesId (parseIntJS idStr))
            (fun n =>
              { n with downloaded := true,
                       downloadCount := n.downloadCount + N })
            st.voiceNotes ∧
    ((markStep idStr)^[N] st).noteIdCounter = st.noteIdCounter := by
  obtain ⟨m, rfl⟩ : ∃ m, N = m + 1 := ⟨N - 1, by omega⟩
  obtain ⟨h1, h2, h3⟩ := markStep_iterate idStr (m + 1) st note hfind
  refine ⟨?_, ?_, h3⟩
  · rw [h2, markFields_iterate_succ, hcount]
    rw [Nat.zero_add]
  · rw [h1]
    apply updateFirst_congrFun
    intro a
    rw [markFields_iterate_succ]

/-- Witness for C5: marking id 1 three times in a registry holding only
`demoNote` (download counter 0) yields `downloaded = true`,
`downloadCount = 3`, with every other field intact. -/
theorem markDownloaded_repeat_witness :
    (demoState.voiceNotes.find? (matchesId (parseIntJS "1")) = some demoNote ∧
      demoNote.downloadCount = 0 ∧ 1 ≤ 3) ∧
    ((markStep "1")^[3] demoState).voiceNotes.find? (matchesId (parseIntJS "1"))
        = some { demoNote with downloaded := true, downloadCount := 3 } ∧
    ((markStep "1")^[3] demoState).voiceNotes
        = updateFirst (matchesId (parseIntJS "1"))
            (fun n =>
              { n with downloaded := true,
                       downloadCount := n.downloadCount + 3 })
            demoState.voiceNotes ∧
    ((markStep "1")^[3] demoState).noteIdCounter = demoState.noteIdCounter :=
  ⟨⟨by decide, by decide, by decide⟩,
    markDownloaded_repeat demoState "1" demoNote 3
      (by decide) (by decide) (by decide)⟩

end VoiceBackend
